import Mathlib

/-!
Shallow embedding of the calldata-generation CLI
`src/scripts/generate_garaga_calldata.py`.

The script is pure glue: it parses two JSON files through the external
garaga library, computes calldata, and emits a JSON result object either
to a file or to standard output, with diagnostics on standard error.
The external library is modelled as an opaque record of three fallible
functions (the boundary the script consumes); the filesystem is a map
from paths to optional contents; a run is a list of observable events
(file reads, file writes, stdout lines, stderr lines) together with an
exit code.
-/

namespace GaragaCalldata

/-- Decimal digit character for a single digit value (0..9). -/
def decDigitChar : Nat → Char
  | 0 => '0'
  | 1 => '1'
  | 2 => '2'
  | 3 => '3'
  | 4 => '4'
  | 5 => '5'
  | 6 => '6'
  | 7 => '7'
  | 8 => '8'
  | _ => '9'

/-- Base-10 digit characters of a natural number, most significant first.
Fuel-based structural recursion so that it computes by kernel reduction;
the fuel argument strictly bounds the value. -/
def natDecDigitsAux : Nat → Nat → List Char
  | 0, _ => []
  | fuel + 1, n =>
    if n < 10 then [decDigitChar n]
    else natDecDigitsAux fuel (n / 10) ++ [decDigitChar (n % 10)]

/-- Base-10 digit characters of a natural number. -/
def natDecDigits (n : Nat) : List Char := natDecDigitsAux (n + 1) n

/-- Python str applied to a nonnegative integer: its decimal representation. -/
def pyStrNat (n : Nat) : String := String.mk (natDecDigits n)

/-- Python str applied to an arbitrary integer: decimal digits, with a
leading minus sign when negative.  Embeds the conversion performed at
line 52 of the script. -/
def pyStr (x : Int) : String :=
  if x < 0 then String.mk ('-' :: natDecDigits x.natAbs) else pyStrNat x.toNat

/-- A string made solely of decimal digits, optionally preceded by a
leading minus sign (and nonempty after the sign). -/
def isDecimalString (s : String) : Bool :=
  match s.data with
  | [] => false
  | c :: cs =>
    if c = '-' then !cs.isEmpty && cs.all Char.isDigit
    else (c :: cs).all Char.isDigit

/-- Verifying key as seen by the script: only the curve identifier and the
IC point list are ever inspected (for diagnostic logging).  The points
themselves are opaque to the script. -/
structure Groth16VerifyingKey where
  curve_id : String
  ic : List (Int × Int)

/-- Proof as seen by the script: only the curve identifier is inspected. -/
structure Groth16Proof where
  curve_id : String

/-- The boundary of the external garaga library the script consumes:
parse a verifying key from file contents, parse a proof from file
contents, and compute calldata from the pair.  Each can fail, modelling
a raised exception; calldata elements are integers. -/
structure GaragaLib where
  vkFromJson : String → Except String Groth16VerifyingKey
  proofFromJson : String → Except String Groth16Proof
  groth16_calldata_from_vk_and_proof :
    Groth16VerifyingKey → Groth16Proof → Except String (List Int)

/-- Filesystem: a map from paths to optional file contents. -/
abbrev FS := String → Option String

/-- Observable events of a run. -/
inductive Ev where
  | readFile (path : String)
  | writeFile (path contents : String)
  | stdoutLine (line : String)
  | stderrLine (line : String)
deriving DecidableEq

/-- Usage message printed on argument-count violation (line 31). -/
def usageMsg : String :=
  "Usage: python3 generate_garaga_calldata.py <proof_json> <vk_json> [output_json]"

/-- Diagnostic printed after the verifying key is parsed (line 40). -/
def vkLoadedMsg (c : String) (n : Nat) : String :=
  "VK loaded: curve=" ++ c ++ ", IC length=" ++ pyStrNat n

/-- Diagnostic printed after the proof is parsed (line 44). -/
def proofLoadedMsg (c : String) : String :=
  "Proof loaded: curve=" ++ c

/-- Diagnostic printed after calldata generation (line 48). -/
def generatedMsg (n : Nat) : String :=
  "Calldata generated: " ++ pyStrNat n ++ " elements"

/-- Diagnostic printed after the output file is written (line 59). -/
def writtenMsg (p : String) : String :=
  "Calldata written to " ++ p

/-- Stderr trace emitted when an uncaught exception terminates the
interpreter. -/
def tracebackMsg (e : String) : String :=
  "Traceback (most recent call last): " ++ e

/-- The result dictionary built at lines 51-54 of the script. -/
structure ResultObj where
  calldata : List String
  length : Nat

/-- result = dict with calldata the decimal strings and length the count. -/
def buildResult (cd : List Int) : ResultObj :=
  { calldata := cd.map pyStr, length := cd.length }

/-- JSON string literal (the calldata strings never need escaping: they
are decimal digit strings, possibly with a leading minus sign). -/
def jsonStringLit (s : String) : String := "\"" ++ s ++ "\""

/-- json.dumps of the result object, with Python's default separators and
insertion-ordered keys calldata then length. -/
def jsonDumps (r : ResultObj) : String :=
  "\x7b\"calldata\": [" ++
    String.intercalate ", " (r.calldata.map jsonStringLit) ++
    "], \"length\": " ++ pyStrNat r.length ++ "\x7d"

/-- from_json on a path: read the file (a missing file raises), then parse
the contents with the library routine. -/
def readParse {α : Type} (parse : String → Except String α) (fs : FS)
    (path : String) : Except String α :=
  match fs path with
  | none => Except.error ("FileNotFoundError: " ++ path)
  | some contents => parse contents

/-- Events common to every run that reaches the output step: read and
parse the vk, read and parse the proof, generate the calldata, each with
its stderr diagnostic (lines 38-48). -/
def commonEvents (vk_path proof_path : String) (vk : Groth16VerifyingKey)
    (pf : Groth16Proof) (cd : List Int) : List Ev :=
  [Ev.readFile vk_path, Ev.stderrLine (vkLoadedMsg vk.curve_id vk.ic.length),
   Ev.readFile proof_path, Ev.stderrLine (proofLoadedMsg pf.curve_id),
   Ev.stderrLine (generatedMsg cd.length)]

/-- Output step (lines 56-62): a truthy output path gets the JSON written
to the file plus a stderr confirmation; an absent or empty path sends the
JSON to stdout. -/
def outEvents (output_path : Option String) (js : String) : List Ev :=
  match output_path with
  | some p =>
    if p = "" then [Ev.stdoutLine js]
    else [Ev.writeFile p js, Ev.stderrLine (writtenMsg p)]
  | none => [Ev.stdoutLine js]

/-- Body of main after the argument-count check (lines 38-62): parse vk,
parse proof, generate calldata, build the result, emit it.  Any library
failure propagates as an uncaught exception: stderr trace, exit 1. -/
def mainChecked (lib : GaragaLib) (fs : FS) (proof_path vk_path : String)
    (output_path : Option String) : List Ev × Nat :=
  match readParse lib.vkFromJson fs vk_path with
  | Except.error e => ([Ev.readFile vk_path, Ev.stderrLine (tracebackMsg e)], 1)
  | Except.ok vk =>
    match readParse lib.proofFromJson fs proof_path with
    | Except.error e =>
      ([Ev.readFile vk_path, Ev.stderrLine (vkLoadedMsg vk.curve_id vk.ic.length),
        Ev.readFile proof_path, Ev.stderrLine (tracebackMsg e)], 1)
    | Except.ok pf =>
      match lib.groth16_calldata_from_vk_and_proof vk pf with
      | Except.error e =>
        ([Ev.readFile vk_path, Ev.stderrLine (vkLoadedMsg vk.curve_id vk.ic.length),
          Ev.readFile proof_path, Ev.stderrLine (proofLoadedMsg pf.curve_id),
          Ev.stderrLine (tracebackMsg e)], 1)
      | Except.ok cd =>
        (commonEvents vk_path proof_path vk pf cd ++
          outEvents output_path (jsonDumps (buildResult cd)), 0)

/-- The whole of main (lines 29-62).  argv includes the program name at
index 0, as sys.argv does; with fewer than three entries the usage text
goes to stdout and the exit status is 1 (lines 30-32); otherwise
sys.argv 1 is the proof path, sys.argv 2 the vk path, and sys.argv 3,
when present, the output path (lines 34-36). -/
def pyMain (lib : GaragaLib) (fs : FS) (argv : List String) : List Ev × Nat :=
  if argv.length < 3 then
    ([Ev.stdoutLine usageMsg], 1)
  else
    mainChecked lib fs (argv.getD 1 "") (argv.getD 2 "")
      (if 3 < argv.length then some (argv.getD 3 "") else none)

/-- Lines a run prints to standard output, in order. -/
def stdoutOf (r : List Ev × Nat) : List String :=
  r.1.filterMap fun e =>
    match e with
    | Ev.stdoutLine s => some s
    | _ => none

/-- Effect of one event on the filesystem: a write with mode w truncates
and replaces the contents at the path; nothing else changes any file. -/
def applyEv (fs : FS) : Ev → FS
  | Ev.writeFile p c => fun q => if q = p then some c else fs q
  | _ => fs

/-- Filesystem after a run's events. -/
def runFS (fs : FS) (evs : List Ev) : FS := evs.foldl applyEv fs

/-- The three-stage library pipeline on its own, used to state failure
conditions: vk parse, then proof parse, then calldata. -/
def pipelineExcept (lib : GaragaLib) (fs : FS) (proof_path vk_path : String) :
    Except String (List Int) :=
  match readParse lib.vkFromJson fs vk_path with
  | Except.error e => Except.error e
  | Except.ok vk =>
    match readParse lib.proofFromJson fs proof_path with
    | Except.error e => Except.error e
    | Except.ok pf => lib.groth16_calldata_from_vk_and_proof vk pf

/-- Head character of a string, used to separate message families. -/
def strHead (s : String) : Option Char := s.data.head?

/-- Concrete verifying key for witnesses. -/
def sampleVK : Groth16VerifyingKey :=
  { curve_id := "BN254", ic := [(1, 2), (3, 4), (5, 6)] }

/-- Concrete proof for witnesses. -/
def sampleProof : Groth16Proof := { curve_id := "BN254" }

/-- Concrete library instance for witnesses: accepts one fixed vk blob and
one fixed proof blob and returns a fixed calldata list. -/
def sampleLib : GaragaLib :=
  { vkFromJson := fun c =>
      if c = "vkjson" then Except.ok sampleVK else Except.error "invalid vk",
    proofFromJson := fun c =>
      if c = "proofjson" then Except.ok sampleProof
      else Except.error "invalid proof",
    groth16_calldata_from_vk_and_proof := fun _ _ => Except.ok [1, -2, 30] }

/-- Concrete filesystem for witnesses. -/
def sampleFS : FS := fun p =>
  if p = "proof.json" then some "proofjson"
  else if p = "vk.json" then some "vkjson"
  else none

/-- A second filesystem agreeing with sampleFS on the two input paths but
differing elsewhere. -/
def sampleFS2 : FS := fun p =>
  if p = "other.txt" then some "junk" else sampleFS p

/-! Helper lemmas about decimal rendering. -/

theorem decDigitChar_isDigit (n : Nat) (h : n < 10) :
    (decDigitChar n).isDigit = true := by
  interval_cases n <;> decide

theorem natDecDigitsAux_all_digit :
    ∀ fuel n, n < fuel → ∀ c ∈ natDecDigitsAux fuel n, c.isDigit = true := by
  intro fuel
  induction fuel with
  | zero => intro n h; omega
  | succ f ih =>
    intro n _ c hc
    unfold natDecDigitsAux at hc
    by_cases h10 : n < 10
    · rw [if_pos h10] at hc
      simp only [List.mem_singleton] at hc
      subst hc
      exact decDigitChar_isDigit n h10
    · rw [if_neg h10] at hc
      rw [List.mem_append] at hc
      rcases hc with h1 | h1
      · have hdiv : n / 10 < n := Nat.div_lt_self (by omega) (by omega)
        exact ih (n / 10) (by omega) c h1
      · simp only [List.mem_singleton] at h1
        subst h1
        exact decDigitChar_isDigit _ (Nat.mod_lt _ (by omega))

theorem natDecDigitsAux_ne_nil :
    ∀ fuel n, n < fuel → natDecDigitsAux fuel n ≠ [] := by
  intro fuel
  induction fuel with
  | zero => intro n h; omega
  | succ f _ =>
    intro n _
    unfold natDecDigitsAux
    by_cases h10 : n < 10
    · rw [if_pos h10]; simp
    · rw [if_neg h10]; simp

theorem natDecDigits_all_digit (n : Nat) :
    ∀ c ∈ natDecDigits n, c.isDigit = true :=
  natDecDigitsAux_all_digit (n + 1) n (by omega)

theorem natDecDigits_ne_nil (n : Nat) : natDecDigits n ≠ [] :=
  natDecDigitsAux_ne_nil (n + 1) n (by omega)

theorem pyStr_isDecimalString (x : Int) : isDecimalString (pyStr x) = true := by
  unfold pyStr
  by_cases hx : x < 0
  · rw [if_pos hx]
    unfold isDecimalString
    show (if ('-' : Char) = '-' then
        !(natDecDigits x.natAbs).isEmpty && (natDecDigits x.natAbs).all Char.isDigit
      else (('-' : Char) :: natDecDigits x.natAbs).all Char.isDigit) = true
    rw [if_pos rfl]
    simp only [Bool.and_eq_true, List.all_eq_true]
    constructor
    · cases hd : natDecDigits x.natAbs with
      | nil => exact absurd hd (natDecDigits_ne_nil _)
      | cons a as => simp
    · exact natDecDigits_all_digit _
  · rw [if_neg hx]
    unfold isDecimalString pyStrNat
    cases hd : natDecDigits x.toNat with
    | nil => exact absurd hd (natDecDigits_ne_nil _)
    | cons a as =>
      have hall : ∀ c ∈ a :: as, c.isDigit = true := by
        rw [← hd]; exact natDecDigits_all_digit _
      have ha : a ≠ '-' := by
        intro h
        have := hall a (by simp)
        rw [h] at this
        exact absurd this (by decide)
      show (if a = '-' then !as.isEmpty && as.all Char.isDigit
        else (a :: as).all Char.isDigit) = true
      rw [if_neg ha]
      simp only [List.all_eq_true]
      exact hall

/-! Helper lemmas about string heads, separating the message families. -/

theorem strHead_append (s t : String) (c : Char) (h : strHead s = some c) :
    strHead (s ++ t) = some c := by
  unfold strHead at h ⊢
  rw [String.data_append]
  cases hs : s.data with
  | nil => rw [hs] at h; simp at h
  | cons a as =>
    rw [hs] at h
    simp only [List.head?_cons, Option.some.injEq] at h
    subst h
    simp

theorem strHead_usageMsg : strHead usageMsg = some 'U' := rfl

theorem strHead_vkLoadedMsg (c : String) (n : Nat) :
    strHead (vkLoadedMsg c n) = some 'V' := by
  unfold vkLoadedMsg
  exact strHead_append _ _ _ (strHead_append _ _ _ (strHead_append _ _ _ rfl))

theorem strHead_proofLoadedMsg (c : String) :
    strHead (proofLoadedMsg c) = some 'P' := by
  unfold proofLoadedMsg
  exact strHead_append _ _ _ rfl

theorem strHead_generatedMsg (n : Nat) :
    strHead (generatedMsg n) = some 'C' := by
  unfold generatedMsg
  exact strHead_append _ _ _ (strHead_append _ _ _ rfl)

theorem strHead_writtenMsg (p : String) :
    strHead (writtenMsg p) = some 'C' := by
  unfold writtenMsg
  exact strHead_append _ _ _ rfl

theorem strHead_jsonDumps (r : ResultObj) :
    strHead (jsonDumps r) = some '\x7b' := by
  unfold jsonDumps
  exact strHead_append _ _ _ (strHead_append _ _ _ (strHead_append _ _ _
    (strHead_append _ _ _ rfl)))

/-! Case equations for the embedded main. -/

theorem pyMain_checked (lib : GaragaLib) (fs : FS) (argv : List String)
    (h : ¬ argv.length < 3) :
    pyMain lib fs argv =
      mainChecked lib fs (argv.getD 1 "") (argv.getD 2 "")
        (if 3 < argv.length then some (argv.getD 3 "") else none) := by
  unfold pyMain
  rw [if_neg h]

theorem pyMain_usage (lib : GaragaLib) (fs : FS) (argv : List String)
    (h : argv.length < 3) :
    pyMain lib fs argv = ([Ev.stdoutLine usageMsg], 1) := by
  unfold pyMain
  rw [if_pos h]

theorem mainChecked_vk_error (lib : GaragaLib) (fs : FS)
    (pp vp : String) (op : Option String) (e : String)
    (hvk : readParse lib.vkFromJson fs vp = Except.error e) :
    mainChecked lib fs pp vp op =
      ([Ev.readFile vp, Ev.stderrLine (tracebackMsg e)], 1) := by
  unfold mainChecked
  rw [hvk]

theorem mainChecked_proof_error (lib : GaragaLib) (fs : FS)
    (pp vp : String) (op : Option String) (vk : Groth16VerifyingKey) (e : String)
    (hvk : readParse lib.vkFromJson fs vp = Except.ok vk)
    (hpf : readParse lib.proofFromJson fs pp = Except.error e) :
    mainChecked lib fs pp vp op =
      ([Ev.readFile vp, Ev.stderrLine (vkLoadedMsg vk.curve_id vk.ic.length),
        Ev.readFile pp, Ev.stderrLine (tracebackMsg e)], 1) := by
  unfold mainChecked
  simp only [hvk, hpf]

theorem mainChecked_calldata_error (lib : GaragaLib) (fs : FS)
    (pp vp : String) (op : Option String) (vk : Groth16VerifyingKey)
    (pf : Groth16Proof) (e : String)
    (hvk : readParse lib.vkFromJson fs vp = Except.ok vk)
    (hpf : readParse lib.proofFromJson fs pp = Except.ok pf)
    (hcd : lib.groth16_calldata_from_vk_and_proof vk pf = Except.error e) :
    mainChecked lib fs pp vp op =
      ([Ev.readFile vp, Ev.stderrLine (vkLoadedMsg vk.curve_id vk.ic.length),
        Ev.readFile pp, Ev.stderrLine (proofLoadedMsg pf.curve_id),
        Ev.stderrLine (tracebackMsg e)], 1) := by
  unfold mainChecked
  simp only [hvk, hpf, hcd]

theorem mainChecked_ok (lib : GaragaLib) (fs : FS)
    (pp vp : String) (op : Option String) (vk : Groth16VerifyingKey)
    (pf : Groth16Proof) (cd : List Int)
    (hvk : readParse lib.vkFromJson fs vp = Except.ok vk)
    (hpf : readParse lib.proofFromJson fs pp = Except.ok pf)
    (hcd : lib.groth16_calldata_from_vk_and_proof vk pf = Except.ok cd) :
    mainChecked lib fs pp vp op =
      (commonEvents vp pp vk pf cd ++ outEvents op (jsonDumps (buildResult cd)),
        0) := by
  unfold mainChecked
  simp only [hvk, hpf, hcd]

/-! Stdout computations for run shapes. -/

theorem stdoutOf_ok_file (vp pp : String) (vk : Groth16VerifyingKey)
    (pf : Groth16Proof) (cd : List Int) (p js : String) (hp : ¬ p = "") :
    stdoutOf (commonEvents vp pp vk pf cd ++ outEvents (some p) js, 0) = [] := by
  simp [stdoutOf, commonEvents, outEvents, hp]

theorem stdoutOf_ok_none (vp pp : String) (vk : Groth16VerifyingKey)
    (pf : Groth16Proof) (cd : List Int) (js : String) :
    stdoutOf (commonEvents vp pp vk pf cd ++ outEvents none js, 0) = [js] := by
  simp [stdoutOf, commonEvents, outEvents]

theorem stdoutOf_ok_empty (vp pp : String) (vk : Groth16VerifyingKey)
    (pf : Groth16Proof) (cd : List Int) (js : String) :
    stdoutOf (commonEvents vp pp vk pf cd ++ outEvents (some "") js, 0) = [js] := by
  simp [stdoutOf, commonEvents, outEvents]

theorem outEvents_some (p js : String) :
    outEvents (some p) js =
      if p = "" then [Ev.stdoutLine js]
      else [Ev.writeFile p js, Ev.stderrLine (writtenMsg p)] := rfl

theorem outEvents_none (js : String) :
    outEvents none js = [Ev.stdoutLine js] := rfl

theorem pipelineExcept_ok (lib : GaragaLib) (fs : FS) (pp vp : String)
    (vk : Groth16VerifyingKey) (pf : Groth16Proof)
    (hvk : readParse lib.vkFromJson fs vp = Except.ok vk)
    (hpf : readParse lib.proofFromJson fs pp = Except.ok pf) :
    pipelineExcept lib fs pp vp =
      lib.groth16_calldata_from_vk_and_proof vk pf := by
  unfold pipelineExcept
  simp only [hvk, hpf]

theorem stdoutLine_mem_outEvents (op : Option String) (js s : String)
    (h : Ev.stdoutLine s ∈ outEvents op js) : s = js := by
  unfold outEvents at h
  rcases op with _ | p
  · simp at h; exact h
  · by_cases hp : p = ""
    · simp [hp] at h; exact h
    · simp [hp] at h

/-- Every line the program ever sends to standard output is either the
usage message or the JSON encoding of a built result object. -/
theorem stdoutLine_pyMain (lib : GaragaLib) (fs : FS) (argv : List String)
    (s : String) (h : Ev.stdoutLine s ∈ (pyMain lib fs argv).1) :
    s = usageMsg ∨ ∃ cd : List Int, s = jsonDumps (buildResult cd) := by
  by_cases hlen : argv.length < 3
  · rw [pyMain_usage lib fs argv hlen] at h
    simp at h
    exact Or.inl h
  · rw [pyMain_checked lib fs argv hlen] at h
    rcases hvk : readParse lib.vkFromJson fs (argv.getD 2 "") with e | vk
    · rw [mainChecked_vk_error _ _ _ _ _ _ hvk] at h
      simp at h
    · rcases hpf : readParse lib.proofFromJson fs (argv.getD 1 "") with e | pf
      · rw [mainChecked_proof_error _ _ _ _ _ _ _ hvk hpf] at h
        simp at h
      · rcases hcd : lib.groth16_calldata_from_vk_and_proof vk pf with e | cd
        · rw [mainChecked_calldata_error _ _ _ _ _ _ _ _ hvk hpf hcd] at h
          simp at h
        · rw [mainChecked_ok _ _ _ _ _ _ _ _ hvk hpf hcd] at h
          simp only [List.mem_append] at h
          rcases h with h | h
          · simp [commonEvents] at h
          · exact Or.inr ⟨cd, stdoutLine_mem_outEvents _ _ _ h⟩

theorem ne_of_strHead (s t : String) (a b : Char) (hs : strHead s = some a)
    (ht : strHead t = some b) (hab : a ≠ b) : s ≠ t := by
  intro h
  subst h
  rw [hs] at ht
  injection ht with hv
  exact hab hv

theorem getD_take_str (l : List String) (i n : Nat) (h : i < n) :
    (l.take n).getD i "" = l.getD i "" := by
  rw [List.getD_eq_getElem?_getD, List.getD_eq_getElem?_getD,
    List.getElem?_take, if_pos h]

/-- Claim C2: for every invocation with fewer than 2 positional arguments
(sys.argv shorter than 3 entries, the program name included), the program
prints the usage message to standard output and terminates with exit
status 1, and performs no file read and no file write at all. -/
theorem usage_on_missing_args (lib : GaragaLib) (fs : FS) (argv : List String)
    (h : argv.length < 3) :
    pyMain lib fs argv = ([Ev.stdoutLine usageMsg], 1) ∧
    (∀ p, Ev.readFile p ∉ (pyMain lib fs argv).1) ∧
    (∀ p c, Ev.writeFile p c ∉ (pyMain lib fs argv).1) := by
  have he := pyMain_usage lib fs argv h
  refine ⟨he, ?_, ?_⟩ <;> rw [he] <;> simp

/-- Witness for usage_on_missing_args: a single-entry argv. -/
theorem usage_on_missing_args_witness :
    (["prog"] : List String).length < 3 ∧
    (pyMain sampleLib sampleFS ["prog"] = ([Ev.stdoutLine usageMsg], 1) ∧
      (∀ p, Ev.readFile p ∉ (pyMain sampleLib sampleFS ["prog"]).1) ∧
      (∀ p c, Ev.writeFile p c ∉ (pyMain sampleLib sampleFS ["prog"]).1)) :=
  ⟨by decide, usage_on_missing_args sampleLib sampleFS ["prog"] (by decide)⟩

/-- Claim C8: the run is a deterministic function of the input files'
contents: two filesystems that agree on the proof path and on the vk path
produce byte-identical runs (the same event trace, hence the same
calldata sequence, the same length value, and the same exit code). -/
theorem deterministic_run (lib : GaragaLib) (fs1 fs2 : FS) (argv : List String)
    (hp : fs1 (argv.getD 1 "") = fs2 (argv.getD 1 ""))
    (hv : fs1 (argv.getD 2 "") = fs2 (argv.getD 2 "")) :
    pyMain lib fs1 argv = pyMain lib fs2 argv := by
  have hrp : readParse lib.proofFromJson fs1 (argv.getD 1 "") =
      readParse lib.proofFromJson fs2 (argv.getD 1 "") := by
    unfold readParse; rw [hp]
  have hrv : readParse lib.vkFromJson fs1 (argv.getD 2 "") =
      readParse lib.vkFromJson fs2 (argv.getD 2 "") := by
    unfold readParse; rw [hv]
  unfold pyMain
  by_cases hlen : argv.length < 3
  · rw [if_pos hlen, if_pos hlen]
  · rw [if_neg hlen, if_neg hlen]
    unfold mainChecked
    simp only [hrp, hrv]

/-- Witness for deterministic_run: sampleFS2 differs from sampleFS on an
unrelated path only. -/
theorem deterministic_run_witness :
    sampleFS ((["prog", "proof.json", "vk.json"] : List String).getD 1 "") =
      sampleFS2 ((["prog", "proof.json", "vk.json"] : List String).getD 1 "") ∧
    sampleFS ((["prog", "proof.json", "vk.json"] : List String).getD 2 "") =
      sampleFS2 ((["prog", "proof.json", "vk.json"] : List String).getD 2 "") ∧
    pyMain sampleLib sampleFS ["prog", "proof.json", "vk.json"] =
      pyMain sampleLib sampleFS2 ["prog", "proof.json", "vk.json"] :=
  ⟨by decide, by decide,
    deterministic_run sampleLib sampleFS sampleFS2
      ["prog", "proof.json", "vk.json"] (by decide) (by decide)⟩

/-- Claim C10: with more than 3 positional arguments the invocation is
not rejected: the run coincides with the run on the first three
positional arguments (proof path, vk path, output path), every further
argument being ignored, and the usage-rejection output is not produced. -/
theorem extra_args_ignored (lib : GaragaLib) (fs : FS) (argv : List String)
    (h : 4 < argv.length) :
    pyMain lib fs argv = pyMain lib fs (argv.take 4) ∧
    (pyMain lib fs argv).1 ≠ [Ev.stdoutLine usageMsg] := by
  have hlen4 : (argv.take 4).length = 4 := by
    rw [List.length_take]; omega
  have h1 : ¬ argv.length < 3 := by omega
  constructor
  · have h2 : ¬ (argv.take 4).length < 3 := by omega
    rw [pyMain_checked lib fs argv h1, pyMain_checked lib fs (argv.take 4) h2]
    rw [getD_take_str argv 1 4 (by omega), getD_take_str argv 2 4 (by omega),
      getD_take_str argv 3 4 (by omega)]
    rw [if_pos (by omega : 3 < argv.length), hlen4,
      if_pos (by omega : 3 < 4)]
  · rw [pyMain_checked lib fs argv h1]
    rcases hvk : readParse lib.vkFromJson fs (argv.getD 2 "") with e | vk
    · rw [mainChecked_vk_error _ _ _ _ _ _ hvk]; simp
    · rcases hpf : readParse lib.proofFromJson fs (argv.getD 1 "") with e | pf
      · rw [mainChecked_proof_error _ _ _ _ _ _ _ hvk hpf]; simp
      · rcases hcd : lib.groth16_calldata_from_vk_and_proof vk pf with e | cd
        · rw [mainChecked_calldata_error _ _ _ _ _ _ _ _ hvk hpf hcd]; simp
        · rw [mainChecked_ok _ _ _ _ _ _ _ _ hvk hpf hcd]
          simp [commonEvents]

/-- Witness for extra_args_ignored: five argv entries, four positional. -/
theorem extra_args_ignored_witness :
    4 < (["prog", "proof.json", "vk.json", "out.json", "extra"] :
        List String).length ∧
    (pyMain sampleLib sampleFS
        ["prog", "proof.json", "vk.json", "out.json", "extra"] =
      pyMain sampleLib sampleFS
        ((["prog", "proof.json", "vk.json", "out.json", "extra"] :
          List String).take 4) ∧
    (pyMain sampleLib sampleFS
        ["prog", "proof.json", "vk.json", "out.json", "extra"]).1 ≠
      [Ev.stdoutLine usageMsg]) :=
  ⟨by decide,
    extra_args_ignored sampleLib sampleFS
      ["prog", "proof.json", "vk.json", "out.json", "extra"] (by decide)⟩

/-- Claim C1: every successful run emits (as a stdout line or as the
contents of the written output file) the JSON encoding of a result object
whose length field equals the number of items in its calldata field, the
calldata field being, in order, the decimal string forms of the integers
the library returned, each string consisting solely of decimal digits
optionally preceded by a leading minus sign. -/
theorem calldata_result_shape (lib : GaragaLib) (fs : FS) (argv : List String)
    (h0 : (pyMain lib fs argv).2 = 0) :
    ∃ cd : List Int,
      (Ev.stdoutLine (jsonDumps (buildResult cd)) ∈ (pyMain lib fs argv).1 ∨
        ∃ p, Ev.writeFile p (jsonDumps (buildResult cd)) ∈ (pyMain lib fs argv).1) ∧
      (buildResult cd).length = (buildResult cd).calldata.length ∧
      (buildResult cd).calldata = cd.map pyStr ∧
      ∀ s ∈ (buildResult cd).calldata, isDecimalString s = true := by
  by_cases hlen : argv.length < 3
  · rw [pyMain_usage lib fs argv hlen] at h0
    simp at h0
  · rw [pyMain_checked lib fs argv hlen] at h0 ⊢
    rcases hvk : readParse lib.vkFromJson fs (argv.getD 2 "") with e | vk
    · rw [mainChecked_vk_error _ _ _ _ _ _ hvk] at h0; simp at h0
    · rcases hpf : readParse lib.proofFromJson fs (argv.getD 1 "") with e | pf
      · rw [mainChecked_proof_error _ _ _ _ _ _ _ hvk hpf] at h0; simp at h0
      · rcases hcd : lib.groth16_calldata_from_vk_and_proof vk pf with e | cd
        · rw [mainChecked_calldata_error _ _ _ _ _ _ _ _ hvk hpf hcd] at h0
          simp at h0
        · rw [mainChecked_ok _ _ _ _ _ _ _ _ hvk hpf hcd]
          refine ⟨cd, ?_, ?_, rfl, ?_⟩
          · by_cases h3 : 3 < argv.length
            · rw [if_pos h3]
              by_cases hq : argv.getD 3 "" = ""
              · left
                rw [hq, outEvents_some, if_pos rfl]
                simp
              · right
                refine ⟨argv.getD 3 "", ?_⟩
                rw [outEvents_some, if_neg hq]
                simp
            · rw [if_neg h3]
              left
              rw [outEvents_none]
              simp
          · simp [buildResult]
          · intro s hs
            simp only [buildResult] at hs
            obtain ⟨x, _, rfl⟩ := List.mem_map.mp hs
            exact pyStr_isDecimalString x

/-- Witness for calldata_result_shape: a successful three-argument run. -/
theorem calldata_result_shape_witness :
    (pyMain sampleLib sampleFS ["prog", "proof.json", "vk.json"]).2 = 0 ∧
    ∃ cd : List Int,
      (Ev.stdoutLine (jsonDumps (buildResult cd)) ∈
          (pyMain sampleLib sampleFS ["prog", "proof.json", "vk.json"]).1 ∨
        ∃ p, Ev.writeFile p (jsonDumps (buildResult cd)) ∈
          (pyMain sampleLib sampleFS ["prog", "proof.json", "vk.json"]).1) ∧
      (buildResult cd).length = (buildResult cd).calldata.length ∧
      (buildResult cd).calldata = cd.map pyStr ∧
      ∀ s ∈ (buildResult cd).calldata, isDecimalString s = true :=
  ⟨by decide,
    calldata_result_shape sampleLib sampleFS
      ["prog", "proof.json", "vk.json"] (by decide)⟩

/-- Claim C3: on a successful run, a truthy output path given as the
third positional argument receives the JSON result object as the written
file contents, with a stderr confirmation and nothing on stdout; with no
third positional argument the JSON result object is the single stdout
line. -/
theorem output_destination (lib : GaragaLib) (fs : FS) (argv : List String)
    (h0 : (pyMain lib fs argv).2 = 0) :
    (∀ p, 3 < argv.length → argv.getD 3 "" = p → ¬ p = "" →
      ∃ cd : List Int,
        Ev.writeFile p (jsonDumps (buildResult cd)) ∈ (pyMain lib fs argv).1 ∧
        Ev.stderrLine (writtenMsg p) ∈ (pyMain lib fs argv).1 ∧
        stdoutOf (pyMain lib fs argv) = []) ∧
    (¬ 3 < argv.length →
      ∃ cd : List Int,
        stdoutOf (pyMain lib fs argv) = [jsonDumps (buildResult cd)]) := by
  by_cases hlen : argv.length < 3
  · rw [pyMain_usage lib fs argv hlen] at h0
    simp at h0
  · rw [pyMain_checked lib fs argv hlen] at h0 ⊢
    rcases hvk : readParse lib.vkFromJson fs (argv.getD 2 "") with e | vk
    · rw [mainChecked_vk_error _ _ _ _ _ _ hvk] at h0; simp at h0
    · rcases hpf : readParse lib.proofFromJson fs (argv.getD 1 "") with e | pf
      · rw [mainChecked_proof_error _ _ _ _ _ _ _ hvk hpf] at h0; simp at h0
      · rcases hcd : lib.groth16_calldata_from_vk_and_proof vk pf with e | cd
        · rw [mainChecked_calldata_error _ _ _ _ _ _ _ _ hvk hpf hcd] at h0
          simp at h0
        · rw [mainChecked_ok _ _ _ _ _ _ _ _ hvk hpf hcd]
          constructor
          · intro p h3 hgd hp
            rw [if_pos h3, hgd]
            refine ⟨cd, ?_, ?_, ?_⟩
            · simp [outEvents, hp]
            · simp [outEvents, hp]
            · exact stdoutOf_ok_file _ _ _ _ _ _ _ hp
          · intro h3
            rw [if_neg h3]
            exact ⟨cd, stdoutOf_ok_none _ _ _ _ _ _⟩

/-- Witness for output_destination: a successful run with an output
path. -/
theorem output_destination_witness :
    (pyMain sampleLib sampleFS
        ["prog", "proof.json", "vk.json", "out.json"]).2 = 0 ∧
    ((∀ p, 3 < (["prog", "proof.json", "vk.json", "out.json"] :
          List String).length →
        (["prog", "proof.json", "vk.json", "out.json"] :
          List String).getD 3 "" = p → ¬ p = "" →
      ∃ cd : List Int,
        Ev.writeFile p (jsonDumps (buildResult cd)) ∈
          (pyMain sampleLib sampleFS
            ["prog", "proof.json", "vk.json", "out.json"]).1 ∧
        Ev.stderrLine (writtenMsg p) ∈
          (pyMain sampleLib sampleFS
            ["prog", "proof.json", "vk.json", "out.json"]).1 ∧
        stdoutOf (pyMain sampleLib sampleFS
          ["prog", "proof.json", "vk.json", "out.json"]) = []) ∧
    (¬ 3 < (["prog", "proof.json", "vk.json", "out.json"] :
        List String).length →
      ∃ cd : List Int,
        stdoutOf (pyMain sampleLib sampleFS
          ["prog", "proof.json", "vk.json", "out.json"]) =
          [jsonDumps (buildResult cd)])) :=
  ⟨by decide,
    output_destination sampleLib sampleFS
      ["prog", "proof.json", "vk.json", "out.json"] (by decide)⟩

/-- Claim C4: after the argument-count check, a failure of vk parsing,
proof parsing, or calldata generation makes the process exit with a
non-zero status; and every non-zero-exit run past the argument check
writes no output file and puts nothing on standard output. -/
theorem failure_no_output (lib : GaragaLib) (fs : FS) (argv : List String)
    (hlen : 3 ≤ argv.length) :
    ((∃ e, pipelineExcept lib fs (argv.getD 1 "") (argv.getD 2 "") =
        Except.error e) →
      (pyMain lib fs argv).2 ≠ 0) ∧
    ((pyMain lib fs argv).2 ≠ 0 →
      stdoutOf (pyMain lib fs argv) = [] ∧
      ∀ p c, Ev.writeFile p c ∉ (pyMain lib fs argv).1) := by
  have hlen' : ¬ argv.length < 3 := by omega
  rw [pyMain_checked lib fs argv hlen']
  rcases hvk : readParse lib.vkFromJson fs (argv.getD 2 "") with e | vk
  · rw [mainChecked_vk_error _ _ _ _ _ _ hvk]
    exact ⟨fun _ => by simp, fun _ => ⟨by simp [stdoutOf], by simp⟩⟩
  · rcases hpf : readParse lib.proofFromJson fs (argv.getD 1 "") with e | pf
    · rw [mainChecked_proof_error _ _ _ _ _ _ _ hvk hpf]
      exact ⟨fun _ => by simp, fun _ => ⟨by simp [stdoutOf], by simp⟩⟩
    · rcases hcd : lib.groth16_calldata_from_vk_and_proof vk pf with e | cd
      · rw [mainChecked_calldata_error _ _ _ _ _ _ _ _ hvk hpf hcd]
        exact ⟨fun _ => by simp, fun _ => ⟨by simp [stdoutOf], by simp⟩⟩
      · rw [mainChecked_ok _ _ _ _ _ _ _ _ hvk hpf hcd]
        constructor
        · rintro ⟨e, he⟩
          rw [pipelineExcept_ok _ _ _ _ _ _ hvk hpf, hcd] at he
          exact Except.noConfusion he
        · intro h2
          exact absurd rfl h2

/-- Witness for failure_no_output: the proof path does not exist in the
sample filesystem. -/
theorem failure_no_output_witness :
    3 ≤ (["prog", "missing.json", "vk.json"] : List String).length ∧
    (((∃ e, pipelineExcept sampleLib sampleFS
          ((["prog", "missing.json", "vk.json"] : List String).getD 1 "")
          ((["prog", "missing.json", "vk.json"] : List String).getD 2 "") =
        Except.error e) →
      (pyMain sampleLib sampleFS ["prog", "missing.json", "vk.json"]).2 ≠ 0) ∧
    ((pyMain sampleLib sampleFS ["prog", "missing.json", "vk.json"]).2 ≠ 0 →
      stdoutOf (pyMain sampleLib sampleFS
        ["prog", "missing.json", "vk.json"]) = [] ∧
      ∀ p c, Ev.writeFile p c ∉
        (pyMain sampleLib sampleFS ["prog", "missing.json", "vk.json"]).1)) :=
  ⟨by decide,
    failure_no_output sampleLib sampleFS
      ["prog", "missing.json", "vk.json"] (by decide)⟩

/-- Claim C5: a successful run invoked without an output path puts
exactly one line on standard output, the JSON result; and on any run
whatsoever no stdout line equals any of the diagnostic messages (vk
loaded, proof loaded, calldata generated, write confirmation), which all
go to the stderr stream. -/
theorem stdout_clean_json (lib : GaragaLib) (fs : FS) (argv : List String)
    (h0 : (pyMain lib fs argv).2 = 0) (h1 : argv.length = 3) :
    (∃ cd : List Int,
      stdoutOf (pyMain lib fs argv) = [jsonDumps (buildResult cd)]) ∧
    ∀ (lib2 : GaragaLib) (fs2 : FS) (argv2 : List String) (s : String),
      Ev.stdoutLine s ∈ (pyMain lib2 fs2 argv2).1 →
      (∀ c n, s ≠ vkLoadedMsg c n) ∧ (∀ c, s ≠ proofLoadedMsg c) ∧
      (∀ n, s ≠ generatedMsg n) ∧ (∀ p, s ≠ writtenMsg p) := by
  constructor
  · have hlen : ¬ argv.length < 3 := by omega
    rw [pyMain_checked lib fs argv hlen] at h0 ⊢
    rcases hvk : readParse lib.vkFromJson fs (argv.getD 2 "") with e | vk
    · rw [mainChecked_vk_error _ _ _ _ _ _ hvk] at h0; simp at h0
    · rcases hpf : readParse lib.proofFromJson fs (argv.getD 1 "") with e | pf
      · rw [mainChecked_proof_error _ _ _ _ _ _ _ hvk hpf] at h0; simp at h0
      · rcases hcd : lib.groth16_calldata_from_vk_and_proof vk pf with e | cd
        · rw [mainChecked_calldata_error _ _ _ _ _ _ _ _ hvk hpf hcd] at h0
          simp at h0
        · rw [mainChecked_ok _ _ _ _ _ _ _ _ hvk hpf hcd]
          rw [if_neg (by omega : ¬ 3 < argv.length)]
          exact ⟨cd, stdoutOf_ok_none _ _ _ _ _ _⟩
  · intro lib2 fs2 argv2 s hs
    rcases stdoutLine_pyMain lib2 fs2 argv2 s hs with h | ⟨cd, h⟩
    · subst h
      refine ⟨?_, ?_, ?_, ?_⟩
      · intro c n
        exact ne_of_strHead _ _ 'U' 'V' strHead_usageMsg
          (strHead_vkLoadedMsg c n) (by decide)
      · intro c
        exact ne_of_strHead _ _ 'U' 'P' strHead_usageMsg
          (strHead_proofLoadedMsg c) (by decide)
      · intro n
        exact ne_of_strHead _ _ 'U' 'C' strHead_usageMsg
          (strHead_generatedMsg n) (by decide)
      · intro p
        exact ne_of_strHead _ _ 'U' 'C' strHead_usageMsg
          (strHead_writtenMsg p) (by decide)
    · subst h
      refine ⟨?_, ?_, ?_, ?_⟩
      · intro c n
        exact ne_of_strHead _ _ '\x7b' 'V' (strHead_jsonDumps _)
          (strHead_vkLoadedMsg c n) (by decide)
      · intro c
        exact ne_of_strHead _ _ '\x7b' 'P' (strHead_jsonDumps _)
          (strHead_proofLoadedMsg c) (by decide)
      · intro n
        exact ne_of_strHead _ _ '\x7b' 'C' (strHead_jsonDumps _)
          (strHead_generatedMsg n) (by decide)
      · intro p
        exact ne_of_strHead _ _ '\x7b' 'C' (strHead_jsonDumps _)
          (strHead_writtenMsg p) (by decide)

/-- Witness for stdout_clean_json: a successful run with exactly the two
mandatory arguments. -/
theorem stdout_clean_json_witness :
    (pyMain sampleLib sampleFS ["prog", "proof.json", "vk.json"]).2 = 0 ∧
    (["prog", "proof.json", "vk.json"] : List String).length = 3 ∧
    ((∃ cd : List Int,
      stdoutOf (pyMain sampleLib sampleFS ["prog", "proof.json", "vk.json"]) =
        [jsonDumps (buildResult cd)]) ∧
    ∀ (lib2 : GaragaLib) (fs2 : FS) (argv2 : List String) (s : String),
      Ev.stdoutLine s ∈ (pyMain lib2 fs2 argv2).1 →
      (∀ c n, s ≠ vkLoadedMsg c n) ∧ (∀ c, s ≠ proofLoadedMsg c) ∧
      (∀ n, s ≠ generatedMsg n) ∧ (∀ p, s ≠ writtenMsg p)) :=
  ⟨by decide, by decide,
    stdout_clean_json sampleLib sampleFS ["prog", "proof.json", "vk.json"]
      (by decide) (by decide)⟩

/-- Claim C6: past the argument check the processing order is fixed: the
run's trace starts by reading the vk file; when the vk parses, the vk
diagnostic and the proof-file read follow; when the proof also parses,
its diagnostic follows; when calldata generation also succeeds, the
element-count diagnostic follows, in that order. -/
theorem processing_order (lib : GaragaLib) (fs : FS) (argv : List String)
    (hlen : 3 ≤ argv.length) :
    (∃ tl, (pyMain lib fs argv).1 = Ev.readFile (argv.getD 2 "") :: tl) ∧
    ∀ vk, readParse lib.vkFromJson fs (argv.getD 2 "") = Except.ok vk →
      (∃ tl, (pyMain lib fs argv).1 =
        Ev.readFile (argv.getD 2 "") ::
          Ev.stderrLine (vkLoadedMsg vk.curve_id vk.ic.length) ::
          Ev.readFile (argv.getD 1 "") :: tl) ∧
      ∀ pf, readParse lib.proofFromJson fs (argv.getD 1 "") = Except.ok pf →
        (∃ tl, (pyMain lib fs argv).1 =
          Ev.readFile (argv.getD 2 "") ::
            Ev.stderrLine (vkLoadedMsg vk.curve_id vk.ic.length) ::
            Ev.readFile (argv.getD 1 "") ::
            Ev.stderrLine (proofLoadedMsg pf.curve_id) :: tl) ∧
        ∀ cd, lib.groth16_calldata_from_vk_and_proof vk pf = Except.ok cd →
          ∃ tl, (pyMain lib fs argv).1 =
            Ev.readFile (argv.getD 2 "") ::
              Ev.stderrLine (vkLoadedMsg vk.curve_id vk.ic.length) ::
              Ev.readFile (argv.getD 1 "") ::
              Ev.stderrLine (proofLoadedMsg pf.curve_id) ::
              Ev.stderrLine (generatedMsg cd.length) :: tl := by
  have hlen' : ¬ argv.length < 3 := by omega
  rw [pyMain_checked lib fs argv hlen']
  constructor
  · rcases hvk : readParse lib.vkFromJson fs (argv.getD 2 "") with e | vk
    · rw [mainChecked_vk_error _ _ _ _ _ _ hvk]
      exact ⟨_, rfl⟩
    · rcases hpf : readParse lib.proofFromJson fs (argv.getD 1 "") with e | pf
      · rw [mainChecked_proof_error _ _ _ _ _ _ _ hvk hpf]
        exact ⟨_, rfl⟩
      · rcases hcd : lib.groth16_calldata_from_vk_and_proof vk pf with e | cd
        · rw [mainChecked_calldata_error _ _ _ _ _ _ _ _ hvk hpf hcd]
          exact ⟨_, rfl⟩
        · rw [mainChecked_ok _ _ _ _ _ _ _ _ hvk hpf hcd]
          exact ⟨_, rfl⟩
  · intro vk hvk
    constructor
    · rcases hpf : readParse lib.proofFromJson fs (argv.getD 1 "") with e | pf
      · rw [mainChecked_proof_error _ _ _ _ _ _ _ hvk hpf]
        exact ⟨_, rfl⟩
      · rcases hcd : lib.groth16_calldata_from_vk_and_proof vk pf with e | cd
        · rw [mainChecked_calldata_error _ _ _ _ _ _ _ _ hvk hpf hcd]
          exact ⟨_, rfl⟩
        · rw [mainChecked_ok _ _ _ _ _ _ _ _ hvk hpf hcd]
          exact ⟨_, rfl⟩
    · intro pf hpf
      constructor
      · rcases hcd : lib.groth16_calldata_from_vk_and_proof vk pf with e | cd
        · rw [mainChecked_calldata_error _ _ _ _ _ _ _ _ hvk hpf hcd]
          exact ⟨_, rfl⟩
        · rw [mainChecked_ok _ _ _ _ _ _ _ _ hvk hpf hcd]
          exact ⟨_, rfl⟩
      · intro cd hcd
        rw [mainChecked_ok _ _ _ _ _ _ _ _ hvk hpf hcd]
        exact ⟨_, rfl⟩

/-- Witness for processing_order: the sample three-argument run. -/
theorem processing_order_witness :
    3 ≤ (["prog", "proof.json", "vk.json"] : List String).length ∧
    ((∃ tl, (pyMain sampleLib sampleFS ["prog", "proof.json", "vk.json"]).1 =
      Ev.readFile ((["prog", "proof.json", "vk.json"] :
        List String).getD 2 "") :: tl) ∧
    ∀ vk, readParse sampleLib.vkFromJson sampleFS
        ((["prog", "proof.json", "vk.json"] : List String).getD 2 "") =
        Except.ok vk →
      (∃ tl, (pyMain sampleLib sampleFS ["prog", "proof.json", "vk.json"]).1 =
        Ev.readFile ((["prog", "proof.json", "vk.json"] :
            List String).getD 2 "") ::
          Ev.stderrLine (vkLoadedMsg vk.curve_id vk.ic.length) ::
          Ev.readFile ((["prog", "proof.json", "vk.json"] :
            List String).getD 1 "") :: tl) ∧
      ∀ pf, readParse sampleLib.proofFromJson sampleFS
          ((["prog", "proof.json", "vk.json"] : List String).getD 1 "") =
          Except.ok pf →
        (∃ tl, (pyMain sampleLib sampleFS
            ["prog", "proof.json", "vk.json"]).1 =
          Ev.readFile ((["prog", "proof.json", "vk.json"] :
              List String).getD 2 "") ::
            Ev.stderrLine (vkLoadedMsg vk.curve_id vk.ic.length) ::
            Ev.readFile ((["prog", "proof.json", "vk.json"] :
              List String).getD 1 "") ::
            Ev.stderrLine (proofLoadedMsg pf.curve_id) :: tl) ∧
        ∀ cd, sampleLib.groth16_calldata_from_vk_and_proof vk pf =
            Except.ok cd →
          ∃ tl, (pyMain sampleLib sampleFS
              ["prog", "proof.json", "vk.json"]).1 =
            Ev.readFile ((["prog", "proof.json", "vk.json"] :
                List String).getD 2 "") ::
              Ev.stderrLine (vkLoadedMsg vk.curve_id vk.ic.length) ::
              Ev.readFile ((["prog", "proof.json", "vk.json"] :
                List String).getD 1 "") ::
              Ev.stderrLine (proofLoadedMsg pf.curve_id) ::
              Ev.stderrLine (generatedMsg cd.length) :: tl) :=
  ⟨by decide,
    processing_order sampleLib sampleFS ["prog", "proof.json", "vk.json"]
      (by decide)⟩

/-- Claim C7: a successful run with a truthy output path leaves the
filesystem holding exactly the JSON result object at that path,
regardless of the file's prior contents, and leaves every other path
untouched. -/
theorem output_overwrite_frame (lib : GaragaLib) (fs : FS) (argv : List String)
    (p : String) (h3 : 3 < argv.length) (hgd : argv.getD 3 "" = p)
    (hne : ¬ p = "") (h0 : (pyMain lib fs argv).2 = 0) :
    ∃ cd : List Int,
      runFS fs (pyMain lib fs argv).1 p = some (jsonDumps (buildResult cd)) ∧
      ∀ q, ¬ q = p → runFS fs (pyMain lib fs argv).1 q = fs q := by
  have hlen : ¬ argv.length < 3 := by omega
  rw [pyMain_checked lib fs argv hlen] at h0 ⊢
  rcases hvk : readParse lib.vkFromJson fs (argv.getD 2 "") with e | vk
  · rw [mainChecked_vk_error _ _ _ _ _ _ hvk] at h0; simp at h0
  · rcases hpf : readParse lib.proofFromJson fs (argv.getD 1 "") with e | pf
    · rw [mainChecked_proof_error _ _ _ _ _ _ _ hvk hpf] at h0; simp at h0
    · rcases hcd : lib.groth16_calldata_from_vk_and_proof vk pf with e | cd
      · rw [mainChecked_calldata_error _ _ _ _ _ _ _ _ hvk hpf hcd] at h0
        simp at h0
      · rw [mainChecked_ok _ _ _ _ _ _ _ _ hvk hpf hcd]
        rw [if_pos h3, hgd, outEvents_some, if_neg hne]
        refine ⟨cd, ?_, ?_⟩
        · simp [runFS, commonEvents, applyEv]
        · intro q hq
          simp [runFS, commonEvents, applyEv, hq]

/-- Witness for output_overwrite_frame: writing to out.json. -/
theorem output_overwrite_frame_witness :
    3 < (["prog", "proof.json", "vk.json", "out.json"] :
        List String).length ∧
    (["prog", "proof.json", "vk.json", "out.json"] :
        List String).getD 3 "" = "out.json" ∧
    ¬ ("out.json" : String) = "" ∧
    (pyMain sampleLib sampleFS
        ["prog", "proof.json", "vk.json", "out.json"]).2 = 0 ∧
    ∃ cd : List Int,
      runFS sampleFS (pyMain sampleLib sampleFS
          ["prog", "proof.json", "vk.json", "out.json"]).1 "out.json" =
        some (jsonDumps (buildResult cd)) ∧
      ∀ q, ¬ q = "out.json" →
        runFS sampleFS (pyMain sampleLib sampleFS
          ["prog", "proof.json", "vk.json", "out.json"]).1 q = sampleFS q :=
  ⟨by decide, by decide, by decide, by decide,
    output_overwrite_frame sampleLib sampleFS
      ["prog", "proof.json", "vk.json", "out.json"] "out.json"
      (by decide) (by decide) (by decide) (by decide)⟩

/-- Claim C9: an empty string given as the third positional argument is
treated as an absent output path: on a successful such run the JSON
result goes to standard output and no file write happens. -/
theorem empty_output_path_to_stdout (lib : GaragaLib) (fs : FS)
    (argv : List String) (h3 : 3 < argv.length)
    (he : argv.getD 3 "" = "") (h0 : (pyMain lib fs argv).2 = 0) :
    (∃ cd : List Int,
      stdoutOf (pyMain lib fs argv) = [jsonDumps (buildResult cd)]) ∧
    ∀ p c, Ev.writeFile p c ∉ (pyMain lib fs argv).1 := by
  have hlen : ¬ argv.length < 3 := by omega
  rw [pyMain_checked lib fs argv hlen] at h0 ⊢
  rcases hvk : readParse lib.vkFromJson fs (argv.getD 2 "") with e | vk
  · rw [mainChecked_vk_error _ _ _ _ _ _ hvk] at h0; simp at h0
  · rcases hpf : readParse lib.proofFromJson fs (argv.getD 1 "") with e | pf
    · rw [mainChecked_proof_error _ _ _ _ _ _ _ hvk hpf] at h0; simp at h0
    · rcases hcd : lib.groth16_calldata_from_vk_and_proof vk pf with e | cd
      · rw [mainChecked_calldata_error _ _ _ _ _ _ _ _ hvk hpf hcd] at h0
        simp at h0
      · rw [mainChecked_ok _ _ _ _ _ _ _ _ hvk hpf hcd]
        rw [if_pos h3, he]
        constructor
        · exact ⟨cd, stdoutOf_ok_empty _ _ _ _ _ _⟩
        · intro p c
          rw [outEvents_some, if_pos rfl]
          simp [commonEvents]

/-- Witness for empty_output_path_to_stdout: an explicit empty third
positional argument. -/
theorem empty_output_path_to_stdout_witness :
    3 < (["prog", "proof.json", "vk.json", ""] : List String).length ∧
    (["prog", "proof.json", "vk.json", ""] : List String).getD 3 "" = "" ∧
    (pyMain sampleLib sampleFS ["prog", "proof.json", "vk.json", ""]).2 = 0 ∧
    ((∃ cd : List Int,
      stdoutOf (pyMain sampleLib sampleFS
        ["prog", "proof.json", "vk.json", ""]) =
        [jsonDumps (buildResult cd)]) ∧
    ∀ p c, Ev.writeFile p c ∉
      (pyMain sampleLib sampleFS ["prog", "proof.json", "vk.json", ""]).1) :=
  ⟨by decide, by decide, by decide,
    empty_output_path_to_stdout sampleLib sampleFS
      ["prog", "proof.json", "vk.json", ""]
      (by decide) (by decide) (by decide)⟩

end GaragaCalldata
